import Mathlib

/-!
Verification of the configuration-resolution core of the
`create-sqlalchemy-app` project-scaffolding tool, together with the
starter-kit registry.

The repository ships the tests of the configuration core
(`tests/test_config.py`, `tests/test_cli.py`) and the starter-kit
registry (`create_sqlalchemy_app/starters/__init__.py`).  The
configuration module itself (`create_sqlalchemy_app/config.py`) is not
part of the available sources, so its definitions below are modelled
from the specification, pinned by the exact values the shipped tests
assert.  The starter-kit registry is embedded directly from its source.
-/

/-- Modelled from the spec: the closed `Framework` enumeration of
`config.py` (absent from the sources) with variants FASTAPI, FLASK,
MINIMAL. -/
inductive Framework where
  | FASTAPI
  | FLASK
  | MINIMAL
deriving DecidableEq, Repr

/-- Modelled from the spec: the closed `Database` enumeration of
`config.py` (absent from the sources) with variants POSTGRESQL, SQLITE,
MYSQL. -/
inductive Database where
  | POSTGRESQL
  | SQLITE
  | MYSQL
deriving DecidableEq, Repr

/-- Modelled from the spec: the stable identifier string of each
Framework variant (`Framework.value` in the Python enum). -/
def Framework.value : Framework → String
  | .FASTAPI => "fastapi"
  | .FLASK => "flask"
  | .MINIMAL => "minimal"

/-- Modelled from the spec: the stable identifier string of each
Database variant (`Database.value` in the Python enum). -/
def Database.value : Database → String
  | .POSTGRESQL => "postgresql"
  | .SQLITE => "sqlite"
  | .MYSQL => "mysql"

/-- Modelled from the spec: the SQLAlchemy dialect+driver string
attached to each Database variant. -/
def Database.driver : Database → String
  | .POSTGRESQL => "postgresql"
  | .SQLITE => "sqlite"
  | .MYSQL => "mysql+pymysql"

/-- Modelled from the spec: the default network port string of each
Database variant; empty for the file-based SQLite. -/
def Database.default_port : Database → String
  | .POSTGRESQL => "5432"
  | .SQLITE => ""
  | .MYSQL => "3306"

/-- Modelled from the spec: whether the Database variant needs a running
server process; false only for SQLite. -/
def Database.requires_server : Database → Bool
  | .POSTGRESQL => true
  | .SQLITE => false
  | .MYSQL => true

/-- Modelled from the spec: the `ProjectConfig` dataclass of `config.py`
(absent from the sources): the resolved descriptor of one
project-generation run.  `path` is the filesystem destination, kept as a
plain string. -/
structure ProjectConfig where
  name : String
  path : String
  framework : Framework
  database : Database
  db_name : String
  db_user : String
  db_password : String
  db_host : String
  db_port : String
  venv_name : String
  include_tests : Bool
  include_data_import : Bool
deriving DecidableEq, Repr

/-- Filesystem path join, the shallow rendering of the `/` operator of `pathlib`: the
path join used by `venv_path`: parent, separator, child. -/
def joinPath (parent child : String) : String :=
  parent ++ "/" ++ child

/-- Modelled from the spec: construction of a `ProjectConfig` from the
two required fields and optional overrides; an omitted field takes its
default (`framework` MINIMAL, `database` POSTGRESQL, `db_name` "mydb",
`db_user` and `db_password` "postgres", `db_host` "localhost",
`db_port` the default port of the chosen database, `venv_name` ".venv").
The feature toggles have no spec-fixed default, so the caller supplies
them. -/
def mkProjectConfig (name path : String)
    (framework : Option Framework) (database : Option Database)
    (db_name db_user db_password db_host db_port venv_name : Option String)
    (include_tests include_data_import : Bool) : ProjectConfig :=
  let db := database.getD Database.POSTGRESQL
  { name := name
    path := path
    framework := framework.getD Framework.MINIMAL
    database := db
    db_name := db_name.getD "mydb"
    db_user := db_user.getD "postgres"
    db_password := db_password.getD "postgres"
    db_host := db_host.getD "localhost"
    db_port := db_port.getD db.default_port
    venv_name := venv_name.getD ".venv"
    include_tests := include_tests
    include_data_import := include_data_import }

/-- Modelled from the spec: the `venv_path` derivation of
`ProjectConfig`: the project path joined with the virtual-environment
directory name. -/
def ProjectConfig.venv_path (c : ProjectConfig) : String :=
  joinPath c.path c.venv_name

/-- Modelled from the spec: the `database_url` derivation of
`ProjectConfig`, built by case on the database variant; the SQLite URL is
file-based and uses only `db_name`. -/
def ProjectConfig.database_url (c : ProjectConfig) : String :=
  match c.database with
  | .SQLITE => "sqlite:///" ++ c.db_name ++ ".db"
  | .POSTGRESQL =>
      "postgresql://" ++ c.db_user ++ ":" ++ c.db_password ++ "@" ++
        c.db_host ++ ":" ++ c.db_port ++ "/" ++ c.db_name
  | .MYSQL =>
      "mysql+pymysql://" ++ c.db_user ++ ":" ++ c.db_password ++ "@" ++
        c.db_host ++ ":" ++ c.db_port ++ "/" ++ c.db_name

/-- Modelled from the spec: the `get_dependencies` derivation of
`ProjectConfig`: start from the fixed baseline, add the framework
packages (plus its test packages when `include_tests`), add the driver package of the database, and append the data-import packages when
`include_data_import`. -/
def ProjectConfig.get_dependencies (c : ProjectConfig) : List String :=
  let base := ["sqlalchemy>=2.0.0", "alembic", "python-dotenv"]
  let fw :=
    match c.framework with
    | .FASTAPI =>
        ["fastapi", "uvicorn[standard]"] ++
          (if c.include_tests then ["pytest", "pytest-asyncio"] else [])
    | .FLASK =>
        ["flask", "flask-sqlalchemy"] ++
          (if c.include_tests then ["pytest"] else [])
    | .MINIMAL => []
  let db :=
    match c.database with
    | .POSTGRESQL => ["psycopg[binary]"]
    | .MYSQL => ["pymysql"]
    | .SQLITE => []
  let di := if c.include_data_import then ["pandas", "openpyxl"] else []
  base ++ fw ++ db ++ di

/-- Modelled from the spec: the mapping produced by
`to_template_context`, rendered as a record with one field per
template-variable name. -/
structure TemplateContext where
  project_name : String
  framework : String
  database : String
  is_fastapi : Bool
  is_flask : Bool
  is_minimal : Bool
  is_postgresql : Bool
  is_sqlite : Bool
  is_mysql : Bool
  requires_server : Bool
  database_url : String
deriving DecidableEq, Repr

/-- Modelled from the spec: the `to_template_context` derivation of
`ProjectConfig`; every boolean flag is computed from the single-valued
`framework` / `database` fields. -/
def ProjectConfig.to_template_context (c : ProjectConfig) : TemplateContext :=
  { project_name := c.name
    framework := c.framework.value
    database := c.database.value
    is_fastapi := decide (c.framework = Framework.FASTAPI)
    is_flask := decide (c.framework = Framework.FLASK)
    is_minimal := decide (c.framework = Framework.MINIMAL)
    is_postgresql := decide (c.database = Database.POSTGRESQL)
    is_sqlite := decide (c.database = Database.SQLITE)
    is_mysql := decide (c.database = Database.MYSQL)
    requires_server := c.database.requires_server
    database_url := c.database_url }

/-- The starter-kit registry of
`create_sqlalchemy_app/starters/__init__.py`: every entry is commented
out in the source, so the dictionary is empty.  Values are modelled as
`Unit` since no starter class exists. -/
def STARTERS : List (String × Unit) := []

/-- `get_starter` from `starters/__init__.py`: look the name up in the
registry; on a miss, fail with a message listing the available names
(the Python `or "none yet"` gives "none yet" when the joined key list is
empty). -/
def get_starter (name : String) : Except String Unit :=
  match STARTERS.lookup name with
  | some v => .ok v
  | none =>
      let joined := String.intercalate ", " (STARTERS.map Prod.fst)
      let available := if joined = "" then "none yet" else joined
      .error ("Unknown starter: " ++ name ++ ". Available: " ++ available)

/-- `list_starters` from `starters/__init__.py`: the key list of the registry. -/
def list_starters : List String :=
  STARTERS.map Prod.fst

/-! ## Helper lemmas and sample configurations -/

/-- A string of positive length is not the empty string. -/
theorem ne_empty_of_length_pos (s : String) (h : 0 < s.length) : s ≠ "" := by
  intro he
  rw [he] at h
  simp at h

/-- Appending on the right preserves positive length. -/
theorem length_append_pos_left (a b : String) (h : 0 < a.length) :
    0 < (a ++ b).length := by
  rw [String.length_append]
  omega

/-- Appending on the left preserves positive length. -/
theorem length_append_pos_right (a b : String) (h : 0 < b.length) :
    0 < (a ++ b).length := by
  rw [String.length_append]
  omega

/-- A concrete configuration mirroring the fixture used throughout the
test-suite, parameterised by the two enum choices and the toggles. -/
def sampleConfig (fw : Framework) (db : Database) (it idi : Bool) :
    ProjectConfig :=
  { name := "test"
    path := "/tmp/test"
    framework := fw
    database := db
    db_name := "testdb"
    db_user := "user"
    db_password := "pass"
    db_host := "localhost"
    db_port := "5432"
    venv_name := ".venv"
    include_tests := it
    include_data_import := idi }

/-! ## Claims -/

/-- C1: for every ProjectConfig, `database_url` is built by case on the
database field: SQLITE gives `sqlite:///{db_name}.db` and uses none of
the credential fields (they are universally quantified and absent from
the right-hand side); POSTGRESQL and MYSQL interpolate user, password,
host, port and name under their own scheme. -/
theorem database_url_by_case (n p dn du dp dh dpo vn : String)
    (fw : Framework) (it idi : Bool) :
    (ProjectConfig.mk n p fw Database.SQLITE dn du dp dh dpo vn it idi).database_url
        = "sqlite:///" ++ dn ++ ".db" ∧
    (ProjectConfig.mk n p fw Database.POSTGRESQL dn du dp dh dpo vn it idi).database_url
        = "postgresql://" ++ du ++ ":" ++ dp ++ "@" ++ dh ++ ":" ++ dpo ++ "/" ++ dn ∧
    (ProjectConfig.mk n p fw Database.MYSQL dn du dp dh dpo vn it idi).database_url
        = "mysql+pymysql://" ++ du ++ ":" ++ dp ++ "@" ++ dh ++ ":" ++ dpo ++ "/" ++ dn :=
  ⟨rfl, rfl, rfl⟩

/-- C2: for every config, the template context has exactly one true
framework flag and exactly one true database-identity flag, and each
flag is true exactly when the corresponding variant is the value of the
`framework` / `database` field. -/
theorem to_template_context_one_hot (c : ProjectConfig) :
    ((c.to_template_context).is_fastapi.toNat
        + (c.to_template_context).is_flask.toNat
        + (c.to_template_context).is_minimal.toNat = 1) ∧
    ((c.to_template_context).is_postgresql.toNat
        + (c.to_template_context).is_sqlite.toNat
        + (c.to_template_context).is_mysql.toNat = 1) ∧
    ((c.to_template_context).is_fastapi = true ↔ c.framework = Framework.FASTAPI) ∧
    ((c.to_template_context).is_flask = true ↔ c.framework = Framework.FLASK) ∧
    ((c.to_template_context).is_minimal = true ↔ c.framework = Framework.MINIMAL) ∧
    ((c.to_template_context).is_postgresql = true ↔ c.database = Database.POSTGRESQL) ∧
    ((c.to_template_context).is_sqlite = true ↔ c.database = Database.SQLITE) ∧
    ((c.to_template_context).is_mysql = true ↔ c.database = Database.MYSQL) := by
  obtain ⟨n, p, fw, db, dn, du, dp, dh, dpo, vn, it, idi⟩ := c
  cases fw <;> cases db <;>
    simp [ProjectConfig.to_template_context]

/-- C3: for a MINIMAL framework, `get_dependencies` never contains
`fastapi` or `flask`; with database SQLITE and both toggles off it
contains the three baseline packages. -/
theorem get_dependencies_minimal (c : ProjectConfig)
    (h : c.framework = Framework.MINIMAL) :
    ("fastapi" ∉ c.get_dependencies ∧ "flask" ∉ c.get_dependencies) ∧
    (c.database = Database.SQLITE → c.include_tests = false →
      c.include_data_import = false →
      ("sqlalchemy>=2.0.0" ∈ c.get_dependencies ∧
       "alembic" ∈ c.get_dependencies ∧
       "python-dotenv" ∈ c.get_dependencies)) := by
  obtain ⟨n, p, fw, db, dn, du, dp, dh, dpo, vn, it, idi⟩ := c
  cases h
  cases db <;> cases it <;> cases idi <;>
    simp [ProjectConfig.get_dependencies]

theorem get_dependencies_minimal_witness :
    (sampleConfig Framework.MINIMAL Database.SQLITE false false).framework
        = Framework.MINIMAL ∧
    (("fastapi" ∉ (sampleConfig Framework.MINIMAL Database.SQLITE false false).get_dependencies ∧
      "flask" ∉ (sampleConfig Framework.MINIMAL Database.SQLITE false false).get_dependencies) ∧
     ((sampleConfig Framework.MINIMAL Database.SQLITE false false).database = Database.SQLITE →
      (sampleConfig Framework.MINIMAL Database.SQLITE false false).include_tests = false →
      (sampleConfig Framework.MINIMAL Database.SQLITE false false).include_data_import = false →
      ("sqlalchemy>=2.0.0" ∈ (sampleConfig Framework.MINIMAL Database.SQLITE false false).get_dependencies ∧
       "alembic" ∈ (sampleConfig Framework.MINIMAL Database.SQLITE false false).get_dependencies ∧
       "python-dotenv" ∈ (sampleConfig Framework.MINIMAL Database.SQLITE false false).get_dependencies))) :=
  ⟨rfl, get_dependencies_minimal (sampleConfig Framework.MINIMAL Database.SQLITE false false) rfl⟩

/-- C4: for framework FASTAPI, database POSTGRESQL and tests included,
`get_dependencies` contains fastapi, uvicorn, psycopg and the two async
test packages. -/
theorem get_dependencies_fastapi (c : ProjectConfig)
    (hf : c.framework = Framework.FASTAPI)
    (hd : c.database = Database.POSTGRESQL)
    (ht : c.include_tests = true) :
    "fastapi" ∈ c.get_dependencies ∧
    "uvicorn[standard]" ∈ c.get_dependencies ∧
    "psycopg[binary]" ∈ c.get_dependencies ∧
    "pytest" ∈ c.get_dependencies ∧
    "pytest-asyncio" ∈ c.get_dependencies := by
  obtain ⟨n, p, fw, db, dn, du, dp, dh, dpo, vn, it, idi⟩ := c
  cases hf
  cases hd
  cases ht
  cases idi <;> simp [ProjectConfig.get_dependencies]

theorem get_dependencies_fastapi_witness :
    (sampleConfig Framework.FASTAPI Database.POSTGRESQL true false).framework
        = Framework.FASTAPI ∧
    ("fastapi" ∈ (sampleConfig Framework.FASTAPI Database.POSTGRESQL true false).get_dependencies ∧
     "uvicorn[standard]" ∈ (sampleConfig Framework.FASTAPI Database.POSTGRESQL true false).get_dependencies ∧
     "psycopg[binary]" ∈ (sampleConfig Framework.FASTAPI Database.POSTGRESQL true false).get_dependencies ∧
     "pytest" ∈ (sampleConfig Framework.FASTAPI Database.POSTGRESQL true false).get_dependencies ∧
     "pytest-asyncio" ∈ (sampleConfig Framework.FASTAPI Database.POSTGRESQL true false).get_dependencies) :=
  ⟨rfl, get_dependencies_fastapi
    (sampleConfig Framework.FASTAPI Database.POSTGRESQL true false) rfl rfl rfl⟩

/-- C5: for every config holding valid enum variants, each derivation
operation produces a well-formed result: a non-empty connection URL, a
non-empty dependency list carrying the baseline, the joined
virtual-environment path, and a context echoing the identifier strings
of both enums; no error branch exists in this layer. -/
theorem derivations_well_formed (c : ProjectConfig) :
    c.database_url ≠ "" ∧
    c.venv_path ≠ "" ∧
    c.get_dependencies ≠ [] ∧
    "sqlalchemy>=2.0.0" ∈ c.get_dependencies ∧
    (c.to_template_context).framework = c.framework.value ∧
    (c.to_template_context).database = c.database.value := by
  obtain ⟨n, p, fw, db, dn, du, dp, dh, dpo, vn, it, idi⟩ := c
  refine ⟨?_, ?_, ?_, ?_, rfl, rfl⟩
  · cases db <;>
      · apply ne_empty_of_length_pos
        simp only [ProjectConfig.database_url]
        repeat  apply length_append_pos_left
        decide
  · apply ne_empty_of_length_pos
    simp only [ProjectConfig.venv_path, joinPath]
    apply length_append_pos_left
    apply length_append_pos_right
    decide
  · cases fw <;> cases db <;> cases it <;> cases idi <;>
      simp [ProjectConfig.get_dependencies]
  · cases fw <;> cases db <;> cases it <;> cases idi <;>
      simp [ProjectConfig.get_dependencies]

/-- C6: constructing a config with only name and path supplied (every
optional field omitted) yields the documented defaults, and for every
database variant chosen with `db_port` omitted, `db_port` resolves to
that variant default port. -/
theorem mk_defaults (name path : String) (it idi : Bool) :
    (mkProjectConfig name path none none none none none none none none it idi).framework
        = Framework.MINIMAL ∧
    (mkProjectConfig name path none none none none none none none none it idi).database
        = Database.POSTGRESQL ∧
    (mkProjectConfig name path none none none none none none none none it idi).db_name
        = "mydb" ∧
    (mkProjectConfig name path none none none none none none none none it idi).db_user
        = "postgres" ∧
    (mkProjectConfig name path none none none none none none none none it idi).db_password
        = "postgres" ∧
    (mkProjectConfig name path none none none none none none none none it idi).db_host
        = "localhost" ∧
    (mkProjectConfig name path none none none none none none none none it idi).venv_name
        = ".venv" ∧
    (mkProjectConfig name path none none none none none none none none it idi).db_port
        = "5432" ∧
    (∀ db : Database,
      (mkProjectConfig name path none (some db) none none none none none none it idi).db_port
          = db.default_port) :=
  ⟨rfl, rfl, rfl, rfl, rfl, rfl, rfl, rfl, fun _ => rfl⟩

/-- C7: for every config (all framework and database variants, both
values of each toggle), `get_dependencies` contains no duplicate
requirement string. -/
theorem get_dependencies_nodup (c : ProjectConfig) :
    (c.get_dependencies).Nodup := by
  obtain ⟨n, p, fw, db, dn, du, dp, dh, dpo, vn, it, idi⟩ := c
  cases fw <;> cases db <;> cases it <;> cases idi <;>
    simp [ProjectConfig.get_dependencies]

/-- C8: the static attributes of the three Database variants:
default port 5432 / 3306 / empty, requires a server except SQLite,
and the three driver strings. -/
theorem database_static_attributes :
    Database.POSTGRESQL.default_port = "5432" ∧
    Database.MYSQL.default_port = "3306" ∧
    Database.SQLITE.default_port = "" ∧
    Database.POSTGRESQL.requires_server = true ∧
    Database.MYSQL.requires_server = true ∧
    Database.SQLITE.requires_server = false ∧
    Database.POSTGRESQL.driver = "postgresql" ∧
    Database.SQLITE.driver = "sqlite" ∧
    Database.MYSQL.driver = "mysql+pymysql" :=
  ⟨rfl, rfl, rfl, rfl, rfl, rfl, rfl, rfl, rfl⟩

/-- C9: for every config, `venv_path` is exactly the path joined with
the virtual-environment name, and it is a pure derivation of those two
fields alone: two configs agreeing on them agree on `venv_path`. -/
theorem venv_path_is_join (c : ProjectConfig) :
    c.venv_path = joinPath c.path c.venv_name ∧
    ∀ c₂ : ProjectConfig, c.path = c₂.path → c.venv_name = c₂.venv_name →
      c.venv_path = c₂.venv_path := by
  refine ⟨rfl, fun c₂ hp hv => ?_⟩
  simp [ProjectConfig.venv_path, joinPath, hp, hv]

theorem venv_path_is_join_witness :
    (sampleConfig Framework.MINIMAL Database.SQLITE false false).venv_path
        = (sampleConfig Framework.FASTAPI Database.MYSQL true true).venv_path :=
  (venv_path_is_join (sampleConfig Framework.MINIMAL Database.SQLITE false false)).2
    (sampleConfig Framework.FASTAPI Database.MYSQL true true) rfl rfl

/-- C10: the STARTERS registry is empty, so `list_starters` is the
empty list and `get_starter` fails with a ValueError-style message for
every name, never returning a value. -/
theorem starters_registry_empty :
    list_starters = [] ∧
    ∀ name : String,
      get_starter name
          = .error ("Unknown starter: " ++ name ++ ". Available: none yet") := by
  refine ⟨rfl, fun name => ?_⟩
  simp [get_starter, STARTERS, String.intercalate, String.append_assoc]
